/-
  Verification of the ralph-tui remote-control core (token lifecycle,
  per-connection authentication state machine, message routing, server
  bind/lifecycle policy, audit logging) against its specification.

  The TypeScript sources under src/src/remote are shallowly embedded:
  JS strings become lists of UTF-16 code units, the persisted credential
  file becomes an Option RemoteConfig value threaded explicitly, the
  randomness consumed by token generation becomes an explicit byte-list
  parameter, and side effects (socket sends, audit appends, socket
  closes) become explicit effect lists returned by the handlers.
-/
import Mathlib

namespace RalphTui

/-- JS strings, modelled as lists of UTF-16 code units. -/
abbrev JStr := List Nat

/-- Code units of a Lean string literal (all literals in this development are ASCII). -/
def str (s : String) : JStr := s.data.map Char.toNat

/-- JS charCodeAt: the code unit at an in-range index. Out of range JS yields NaN;
every out-of-range use in the source is coerced to 0 by a logical-or guard, which
this total model builds in. -/
def charCodeAt (s : JStr) (i : Nat) : Nat := (s.get? i).getD 0

/-- Persisted credential record, from types.ts RemoteConfig:
token, tokenCreatedAt (timestamp, abstracted to Nat), tokenVersion. -/
structure RemoteConfig where
  token : JStr
  tokenCreatedAt : Nat
  tokenVersion : Nat
  deriving DecidableEq, Repr

/-- Token length in bytes, from token.ts (32 bytes = 256 bits). -/
def TOKEN_BYTES : Nat := 32

/-- Code unit of the base64url alphabet at sextet value n: A-Z, a-z, 0-9, minus, underscore. -/
def base64urlChar (n : Nat) : Nat :=
  if n < 26 then 65 + n
  else if n < 52 then 97 + (n - 26)
  else if n < 62 then 48 + (n - 52)
  else if n = 62 then 45
  else 95

/-- Unpadded base64url encoding of a byte list, as produced by Node
Buffer.toString with the base64url encoding. -/
def base64urlEncode : List Nat → JStr
  | [] => []
  | [b1] => [base64urlChar (b1 / 4), base64urlChar (b1 % 4 * 16)]
  | [b1, b2] =>
      [base64urlChar (b1 / 4), base64urlChar (b1 % 4 * 16 + b2 / 16),
       base64urlChar (b2 % 16 * 4)]
  | b1 :: b2 :: b3 :: rest =>
      base64urlChar (b1 / 4) :: base64urlChar (b1 % 4 * 16 + b2 / 16) ::
      base64urlChar (b2 % 16 * 4 + b3 / 64) :: base64urlChar (b3 % 64) ::
      base64urlEncode rest

/-- generateToken from token.ts: base64url encoding of TOKEN_BYTES random bytes.
The randomness of randomBytes is modelled by passing the drawn bytes explicitly. -/
def generateToken (bytes : List Nat) : JStr := base64urlEncode bytes

/-- Truthiness of the JS test on the loaded config token: false when no config
exists or the token string is empty. -/
def configHasToken : Option RemoteConfig → Bool
  | none => false
  | some config => !config.token.isEmpty

/-- The equal-length comparison loop of validateToken:
for i in [0, stored.length), result |= stored.charCodeAt(i) XOR provided.charCodeAt(i). -/
def ctCompareLoop (stored provided : JStr) : Nat :=
  (List.range stored.length).foldl
    (fun result i => result ||| Nat.xor (charCodeAt stored i) (charCodeAt provided i)) 0

/-- The length-mismatch dummy loop of validateToken: same iteration count over the
stored token, indexing the candidate modulo its length (the JS logical-or-zero
guard maps the empty-candidate NaN to 0). Its result is discarded by the source. -/
def ctMismatchLoop (stored provided : JStr) : Nat :=
  (List.range stored.length).foldl
    (fun result i =>
      result ||| Nat.xor (charCodeAt stored i) (charCodeAt provided (i % provided.length))) 0

/-- validateToken from token.ts, with the loaded config passed explicitly:
no (truthy) stored token gives false; a length mismatch runs the dummy loop and
gives false; equal lengths give true exactly when the xor-or accumulator is 0. -/
def validateToken (store : Option RemoteConfig) (providedToken : JStr) : Bool :=
  match store with
  | none => false
  | some config =>
    if config.token.isEmpty then false
    else
      let storedToken := config.token
      if providedToken.length ≠ storedToken.length then
        let _ := ctMismatchLoop storedToken providedToken
        false
      else
        ctCompareLoop storedToken providedToken == 0

/-- Number of comparison-loop iterations validateToken executes on the given
inputs: the shallow model of its running time. Mirrors the branch structure of
the source; both the mismatch branch and the equal-length branch loop over the
stored token length. -/
def validateTokenIterations (store : Option RemoteConfig) (providedToken : JStr) : Nat :=
  match store with
  | none => 0
  | some config =>
    if config.token.isEmpty then 0
    else
      let storedToken := config.token
      if providedToken.length ≠ storedToken.length then storedToken.length
      else storedToken.length

/-- The token-creation tail of getOrCreateToken (token.ts lines 69-78): generate,
persist with version 1, return isNew = true. Result: (new store, token, isNew). -/
def newTokenResult (freshBytes : List Nat) (now : Nat) :
    Option RemoteConfig × JStr × Bool :=
  let token := generateToken freshBytes
  (some { token := token, tokenCreatedAt := now, tokenVersion := 1 }, token, true)

/-- getOrCreateToken from token.ts: if a (truthy) token is on record, return it
with isNew = false and leave the store unchanged; otherwise create. -/
def getOrCreateToken (store : Option RemoteConfig) (freshBytes : List Nat) (now : Nat) :
    Option RemoteConfig × JStr × Bool :=
  match store with
  | some config =>
    if config.token.isEmpty then newTokenResult freshBytes now
    else (some config, config.token, false)
  | none => newTokenResult freshBytes now

/-- The version the source reads before incrementing during rotation: the
existing tokenVersion, or 0 when no config exists (the nullish coalescing in
token.ts line 93). -/
def prevTokenVersion : Option RemoteConfig → Nat
  | some c => c.tokenVersion
  | none => 0

/-- rotateToken from token.ts: generate a new token, set version to
(existing version, or 0 when none) + 1, persist, return the new token. -/
def rotateToken (store : Option RemoteConfig) (freshBytes : List Nat) (now : Nat) :
    RemoteConfig × JStr :=
  let newToken := generateToken freshBytes
  let newConfig : RemoteConfig :=
    { token := newToken
      tokenCreatedAt := now
      tokenVersion := (match store with | some c => c.tokenVersion | none => 0) + 1 }
  (newConfig, newToken)

/-- Audit record shape, from types.ts AuditLogEntry: timestamp, clientId, action,
optional details map, success flag, optional error string. -/
structure AuditLogEntry where
  timestamp : Nat
  clientId : JStr
  action : JStr
  details : Option (List (JStr × JStr))
  success : Bool
  error : Option JStr
  deriving DecidableEq, Repr

/-- Modelled from the spec: audit.ts is not under src. Per section 4.2 an
authentication success or failure appends one entry carrying the client
identifier and a success flag (never the secret); server.ts calls it as
logAuth(clientId, success, error?). -/
def logAuth (now : Nat) (clientId : JStr) (success : Bool) (error : Option JStr) :
    AuditLogEntry :=
  { timestamp := now, clientId := clientId, action := str "auth", details := none,
    success := success, error := error }

/-- Modelled from the spec: audit.ts is not under src. Per section 4.2 a
message-level failure (parse error, unauthorized access attempt) appends one
entry with success false and an optional detail payload; server.ts calls it as
logFailure(clientId, action, error, details?). -/
def logFailure (now : Nat) (clientId action errMsg : JStr)
    (details : Option (List (JStr × JStr))) : AuditLogEntry :=
  { timestamp := now, clientId := clientId, action := action, details := details,
    success := false, error := some errMsg }

/-- Modelled from the spec: audit.ts is not under src. Per section 4.2 a
connection open or close appends one entry; server.ts calls it as
logConnection(clientId, event) with event connect or disconnect. -/
def logConnection (now : Nat) (clientId event : JStr) : AuditLogEntry :=
  { timestamp := now, clientId := clientId, action := event, details := none,
    success := true, error := none }

/-- Modelled from the spec: audit.ts is not under src. Per section 4.2 a server
start or stop appends one entry with the bind parameters as details; server.ts
calls it as logServerEvent(event, details?). -/
def logServerEvent (now : Nat) (event : JStr) (details : Option (List (JStr × JStr))) :
    AuditLogEntry :=
  { timestamp := now, clientId := str "server", action := event, details := details,
    success := true, error := none }

/-- Per-connection state, from server.ts ClientState. -/
structure ClientState where
  id : JStr
  ip : JStr
  authenticated : Bool
  connectedAt : Nat
  deriving DecidableEq, Repr

/-- Inbound message envelope, from types.ts WSMessage. The type tag is a string;
the token field is the auth payload (ignored for other types). -/
structure WSMessage where
  type : JStr
  id : JStr
  timestamp : Nat
  token : JStr
  deriving DecidableEq, Repr

/-- An inbound frame either parses as the envelope structure or fails
(JSON.parse throws). -/
inductive Frame where
  | malformed
  | valid (msg : WSMessage)
  deriving DecidableEq, Repr

/-- Outbound messages the router produces, from types.ts. The correlation id of
each server-generated message is the fresh id passed to the handler; a pong
reuses the request id instead. -/
inductive OutMessage where
  | authResponse (id : JStr) (success : Bool) (error : Option JStr)
  | pong (id : JStr)
  | serverStatus (id : JStr) (version : JStr) (uptime : Nat) (connectedClients : Nat)
  | error (id : JStr) (code : JStr) (message : JStr)
  deriving DecidableEq, Repr

/-- Observable effects of the handlers: a socket send, an audit append, or a
socket close. Connections are identified by an opaque Nat handle. -/
inductive Effect where
  | send (msg : OutMessage)
  | audit (entry : AuditLogEntry)
  | closeConn (socket : Nat)
  deriving DecidableEq, Repr

/-- Version string reported by the server, from server.ts. -/
def serverVersion : JStr := str "0.2.1"

/-- Client identifier used in audit entries, from server.ts: id at ip. -/
def clientLabel (st : ClientState) : JStr := st.id ++ str "@" ++ st.ip

/-- handleAuth from server.ts: validate the presented token; on success set the
authenticated flag and respond and audit success, otherwise leave the state and
respond and audit failure. -/
def handleAuth (store : Option RemoteConfig) (st : ClientState) (msg : WSMessage)
    (freshId : JStr) (now : Nat) : ClientState × List Effect :=
  if validateToken store msg.token then
    ({ st with authenticated := true },
     [Effect.send (OutMessage.authResponse freshId true none),
      Effect.audit (logAuth now (clientLabel st) true none)])
  else
    (st,
     [Effect.send (OutMessage.authResponse freshId false (some (str "Invalid token"))),
      Effect.audit (logAuth now (clientLabel st) false (some (str "Invalid token")))])

/-- handleMessage from server.ts: parse failure gives INVALID_JSON plus an audit
entry; auth is dispatched to handleAuth; ping is answered with a pong reusing
the request id; anything else requires authentication (NOT_AUTHENTICATED plus an
audit entry otherwise); status answers with server_status; unknown types give
UNKNOWN_MESSAGE. The server-side counters consulted by sendStatus (registry
size, uptime) are passed in. -/
def handleMessage (store : Option RemoteConfig) (connectedClients uptime : Nat)
    (st : ClientState) (frame : Frame) (freshId : JStr) (now : Nat) :
    ClientState × List Effect :=
  match frame with
  | Frame.malformed =>
    (st,
     [Effect.send (OutMessage.error freshId (str "INVALID_JSON") (str "Invalid JSON message")),
      Effect.audit (logFailure now (clientLabel st) (str "message_parse")
        (str "Invalid JSON") none)])
  | Frame.valid msg =>
    if msg.type = str "auth" then
      handleAuth store st msg freshId now
    else if msg.type = str "ping" then
      (st, [Effect.send (OutMessage.pong msg.id)])
    else if !st.authenticated then
      (st,
       [Effect.send (OutMessage.error freshId (str "NOT_AUTHENTICATED")
          (str "Authentication required")),
        Effect.audit (logFailure now (clientLabel st) (str "unauthorized_message")
          (str "Not authenticated") (some [(str "messageType", msg.type)]))])
    else if msg.type = str "status" then
      (st, [Effect.send (OutMessage.serverStatus freshId serverVersion uptime connectedClients)])
    else
      (st, [Effect.send (OutMessage.error freshId (str "UNKNOWN_MESSAGE")
        (str "Unknown message type: " ++ msg.type))])

/-- websocketHandler open from server.ts: create a session with the
authenticated flag false, register it, and audit the connect. -/
def openConnection (clients : List (Nat × ClientState)) (ws : Nat) (clientId ip : JStr)
    (now : Nat) : List (Nat × ClientState) × List Effect :=
  let st : ClientState := { id := clientId, ip := ip, authenticated := false, connectedAt := now }
  (clients ++ [(ws, st)],
   [Effect.audit (logConnection now (clientLabel st) (str "connect"))])

/-- Server options, from server.ts RemoteServerOptions (observer callbacks are
external collaborators and carry no state). -/
structure RemoteServerOptions where
  port : Nat
  hasToken : Bool
  deriving DecidableEq, Repr

/-- The RemoteServer instance state: the server field of the class is an
optional socket handle, modelled by the serverRunning flag; clients is the
registry map, keyed by opaque socket handles. -/
structure RemoteServer where
  serverRunning : Bool
  clients : List (Nat × ClientState)
  options : RemoteServerOptions
  startedAt : Option Nat
  deriving DecidableEq, Repr

/-- Run-state snapshot, from types.ts RemoteServerState (pid omitted: process
identity is environmental). -/
structure RemoteServerState where
  running : Bool
  port : Nat
  host : JStr
  startedAt : Nat
  connectedClients : Nat
  deriving DecidableEq, Repr

/-- The bind host chosen by start in server.ts: all interfaces when a token is
configured, loopback otherwise. -/
def bindHost (hasToken : Bool) : JStr :=
  if hasToken then str "0.0.0.0" else str "127.0.0.1"

/-- start from server.ts: fails when already running; otherwise binds to the
host chosen by the token policy, records startedAt, audits a start event and
returns the run state. -/
def start (s : RemoteServer) (now : Nat) :
    Except JStr (RemoteServer × RemoteServerState × List Effect) :=
  if s.serverRunning then
    Except.error (str "Server is already running")
  else
    let host := bindHost s.options.hasToken
    let state : RemoteServerState :=
      { running := true, port := s.options.port, host := host, startedAt := now,
        connectedClients := 0 }
    Except.ok ({ s with serverRunning := true, startedAt := some now }, state,
      [Effect.audit (logServerEvent now (str "start")
        (some [(str "host", host)]))])

/-- The bind host a start attempt would use, or none when start fails because
the server is already running. -/
def startHostResult (s : RemoteServer) (now : Nat) : Option JStr :=
  match start s now with
  | Except.ok r => some r.2.1.host
  | Except.error _ => none

/-- stop from server.ts: a no-op when not running; otherwise close every
registered socket (the try-catch around each close is modelled by close being a
total effect), clear the registry, release the listening socket and audit a
stop event. -/
def stop (s : RemoteServer) (now : Nat) : RemoteServer × List Effect :=
  if s.serverRunning then
    ({ s with serverRunning := false, clients := [] },
     s.clients.map (fun c => Effect.closeConn c.1) ++
       [Effect.audit (logServerEvent now (str "stop") none)])
  else
    (s, [])

/-- createRemoteServer from server.ts: run getOrCreateToken (which creates a
credential when none is on record), derive hasToken as
not-isNew or token-length-positive, and construct an unstarted server.
Returns the server together with the credential store it leaves behind. -/
def createRemoteServer (store : Option RemoteConfig) (freshBytes : List Nat)
    (port : Nat) (now : Nat) : RemoteServer × Option RemoteConfig :=
  let r := getOrCreateToken store freshBytes now
  let token := r.2.1
  let isNew := r.2.2
  let hasToken := !isNew || decide (token.length > 0)
  ({ serverRunning := false, clients := [],
     options := { port := port, hasToken := hasToken }, startedAt := none }, r.1)


/-! ## Helper lemmas -/
theorem lor_eq_zero_iff (m n : Nat) : m ||| n = 0 ↔ m = 0 ∧ n = 0 := by
  constructor
  · intro h
    have hb : ∀ i, m.testBit i = false ∧ n.testBit i = false := by
      intro i
      have hz := congrArg (fun x => Nat.testBit x i) h
      simpa [Nat.testBit_or, Bool.or_eq_false_iff] using hz
    exact ⟨Nat.eq_of_testBit_eq fun i => by simp [(hb i).1],
           Nat.eq_of_testBit_eq fun i => by simp [(hb i).2]⟩
  · rintro ⟨rfl, rfl⟩
    rfl

theorem foldl_lor_eq_zero_iff (f : Nat → Nat) (l : List Nat) (a : Nat) :
    l.foldl (fun r i => r ||| f i) a = 0 ↔ a = 0 ∧ ∀ i ∈ l, f i = 0 := by
  induction l generalizing a with
  | nil => simp
  | cons x xs ih =>
    simp only [List.foldl_cons, ih, lor_eq_zero_iff, List.mem_cons]
    constructor
    · rintro ⟨⟨ha, hx⟩, hxs⟩
      exact ⟨ha, fun i hi => hi.elim (fun e => e ▸ hx) (hxs i)⟩
    · rintro ⟨ha, hall⟩
      exact ⟨⟨ha, hall x (Or.inl rfl)⟩, fun i hi => hall i (Or.inr hi)⟩

theorem charCodeAt_eq_get (s : JStr) (i : Nat) (h : i < s.length) :
    charCodeAt s i = s.get ⟨i, h⟩ := by
  simp [charCodeAt, List.get?_eq_getElem?, List.getElem?_eq_getElem h]

theorem ctCompareLoop_eq_zero_iff (stored provided : JStr)
    (h : provided.length = stored.length) :
    ctCompareLoop stored provided = 0 ↔ stored = provided := by
  unfold ctCompareLoop
  rw [foldl_lor_eq_zero_iff]
  simp only [List.mem_range, true_and]
  constructor
  · intro hz
    apply List.ext_get (by omega)
    intro i h1 h2
    have hxi := hz i h1
    rw [charCodeAt_eq_get stored i h1, charCodeAt_eq_get provided i h2] at hxi
    exact Nat.xor_eq_zero.mp hxi
  · rintro rfl
    intro i hi
    exact Nat.xor_eq_zero.mpr rfl

theorem validateToken_eq_true_iff (store : Option RemoteConfig) (p : JStr) :
    validateToken store p = true ↔
      ∃ c, store = some c ∧ c.token ≠ [] ∧ p = c.token := by
  cases store with
  | none => simp [validateToken]
  | some c =>
    simp only [validateToken, Option.some.injEq]
    split_ifs with he hl
    · constructor
      · intro h
        simp at h
      · rintro ⟨x, rfl, hne, rfl⟩
        exact absurd (List.isEmpty_iff.mp he) hne
    · constructor
      · intro h
        simp at h
      · rintro ⟨x, rfl, hne, rfl⟩
        exact absurd rfl hl
    · have hlen : p.length = c.token.length := not_not.mp hl
      rw [beq_iff_eq, ctCompareLoop_eq_zero_iff c.token p hlen]
      constructor
      · intro hq
        exact ⟨c, rfl, fun hnil => he (by simp [hnil]), hq.symm⟩
      · rintro ⟨x, rfl, hne, rfl⟩
        rfl

theorem base64urlEncode_ne_nil (l : List Nat) (h : l ≠ []) : base64urlEncode l ≠ [] := by
  match l with
  | [] => exact absurd rfl h
  | [b1] => simp [base64urlEncode]
  | [b1, b2] => simp [base64urlEncode]
  | b1 :: b2 :: b3 :: rest => simp [base64urlEncode]

theorem generateToken_ne_nil (bytes : List Nat) (h : bytes ≠ []) :
    generateToken bytes ≠ [] := base64urlEncode_ne_nil bytes h

/-! ## Claim theorems -/

/-- C2: for every stored credential state and every candidate string,
validateToken returns true exactly when a credential with a nonempty secret
exists and the candidate equals it; hence with no credential on record, or with
an empty or otherwise non-matching (malformed) candidate, it returns false. As
a total Lean function over all inputs it cannot throw. -/
theorem C2_validateToken_iff (store : Option RemoteConfig) (candidate : JStr) :
    validateToken store candidate = true ↔
      ∃ c, store = some c ∧ c.token ≠ [] ∧ candidate = c.token :=
  validateToken_eq_true_iff store candidate

/-- C3 is refuted at this input: with a stored secret of length 2 and a
candidate of length 3, validateToken performs 2 comparison-loop iterations,
not the 3 that iterating over the longer of the two lengths would require. -/
theorem C3_counterexample :
    validateTokenIterations
        (some { token := [97, 98], tokenCreatedAt := 0, tokenVersion := 1 })
        [97, 98, 99] ≠
      max ([97, 98, 99] : JStr).length ([97, 98] : JStr).length := by
  decide

/-- C3 (amended): when a credential with a nonempty secret is stored, the
number of comparison-loop iterations validateToken executes equals the stored
secret length in every branch — independent of the candidate entirely, hence
independent of the position of the first mismatching character and of whether
the candidate length matches (no length-based shortcut changes the iteration
count) — and validateToken still returns false on any length mismatch. It does
not, however, iterate over the longer of the two lengths: a longer candidate is
compared in stored-length iterations. -/
theorem C3_iterations_stored_length (c : RemoteConfig) (p q : JStr)
    (h : c.token ≠ []) :
    validateTokenIterations (some c) p = c.token.length ∧
    validateTokenIterations (some c) p = validateTokenIterations (some c) q ∧
    (p.length ≠ c.token.length → validateToken (some c) p = false) := by
  have he : c.token.isEmpty = false := by
    cases ct : c.token <;> simp_all
  have hit : ∀ r : JStr, validateTokenIterations (some c) r = c.token.length := by
    intro r
    simp only [validateTokenIterations, he, Bool.false_eq_true, if_false]
    split_ifs <;> rfl
  refine ⟨hit p, (hit p).trans (hit q).symm, ?_⟩
  intro hne
  simp only [validateToken, he, Bool.false_eq_true, if_false]
  rw [if_pos hne]

/-- C3 witness: the amended statement evaluated at a stored secret of length 2,
a candidate of length 1 and a second candidate of length 4. -/
theorem C3_iterations_witness :
    validateTokenIterations
        (some { token := [97, 98], tokenCreatedAt := 0, tokenVersion := 1 }) [99] = 2 ∧
    validateToken
        (some { token := [97, 98], tokenCreatedAt := 0, tokenVersion := 1 }) [99] = false := by
  have h := C3_iterations_stored_length
    { token := [97, 98], tokenCreatedAt := 0, tokenVersion := 1 } [99] [1, 2, 3, 4]
    (by decide)
  exact ⟨h.1, h.2.2 (by decide)⟩

/-- C4: rotateToken installs a freshly generated secret with version one more
than the previous version (1 when no credential existed); immediately after,
the new secret validates and any previously stored secret no longer does. The
randomness of the generator is an explicit byte parameter, so fresh generation
not reproducing the old secret is a hypothesis. -/
theorem C4_rotate_invalidates (store : Option RemoteConfig) (bytes : List Nat)
    (now : Nat) (hlen : bytes.length = TOKEN_BYTES)
    (hfresh : ∀ c, store = some c → generateToken bytes ≠ c.token) :
    validateToken (some (rotateToken store bytes now).1)
        (rotateToken store bytes now).2 = true ∧
    (∀ c, store = some c →
      validateToken (some (rotateToken store bytes now).1) c.token = false) ∧
    (rotateToken store bytes now).1.tokenVersion = prevTokenVersion store + 1 := by
  have hne : generateToken bytes ≠ [] := by
    refine generateToken_ne_nil bytes ?_
    intro hb
    rw [hb] at hlen
    simp [TOKEN_BYTES] at hlen
  refine ⟨?_, ?_, by cases store <;> rfl⟩
  · exact (validateToken_eq_true_iff _ _).mpr ⟨_, rfl, hne, rfl⟩
  · intro c hc
    cases hv : validateToken (some (rotateToken store bytes now).1) c.token
    · rfl
    · exfalso
      rw [validateToken_eq_true_iff] at hv
      obtain ⟨x, hx, hxt, hct⟩ := hv
      cases hx
      exact hfresh c hc hct.symm

/-- C4 witness: rotation from a stored secret of version 7, with 32 zero bytes
of fresh randomness. -/
theorem C4_rotate_witness :
    validateToken
        (some (rotateToken (some { token := [1, 2], tokenCreatedAt := 5, tokenVersion := 7 })
          (List.replicate 32 0) 9).1)
        (rotateToken (some { token := [1, 2], tokenCreatedAt := 5, tokenVersion := 7 })
          (List.replicate 32 0) 9).2 = true ∧
    validateToken
        (some (rotateToken (some { token := [1, 2], tokenCreatedAt := 5, tokenVersion := 7 })
          (List.replicate 32 0) 9).1) [1, 2] = false ∧
    (rotateToken (some { token := [1, 2], tokenCreatedAt := 5, tokenVersion := 7 })
        (List.replicate 32 0) 9).1.tokenVersion = 8 := by
  have h := C4_rotate_invalidates
    (some { token := [1, 2], tokenCreatedAt := 5, tokenVersion := 7 })
    (List.replicate 32 0) 9 (by decide)
    (by
      intro c hc
      cases hc
      decide)
  exact ⟨h.1, h.2.1 _ rfl, h.2.2⟩

/-- C8: getOrCreateToken leaves an existing nonempty credential untouched and
returns it with isNew false; with no (truthy) credential it persists the
freshly generated nonempty secret with version 1, returns isNew true, the
returned secret validates immediately, and a second call with no rotation in
between returns the same secret with isNew false and leaves the store
unchanged, so the secret still validates. -/
theorem C8_getOrCreate_idempotent (store : Option RemoteConfig)
    (bytes bytes2 : List Nat) (now now2 : Nat) (hlen : bytes.length = TOKEN_BYTES) :
    (∀ c, store = some c → c.token ≠ [] →
      getOrCreateToken store bytes now = (store, c.token, false)) ∧
    (configHasToken store = false →
      (getOrCreateToken store bytes now).2.1 ≠ [] ∧
      (getOrCreateToken store bytes now).2.2 = true ∧
      (getOrCreateToken store bytes now).1 =
        some { token := (getOrCreateToken store bytes now).2.1,
               tokenCreatedAt := now, tokenVersion := 1 } ∧
      validateToken (getOrCreateToken store bytes now).1
        (getOrCreateToken store bytes now).2.1 = true ∧
      getOrCreateToken (getOrCreateToken store bytes now).1 bytes2 now2 =
        ((getOrCreateToken store bytes now).1,
         (getOrCreateToken store bytes now).2.1, false)) := by
  have hne : generateToken bytes ≠ [] := by
    refine generateToken_ne_nil bytes ?_
    intro hb
    rw [hb] at hlen
    simp [TOKEN_BYTES] at hlen
  constructor
  · intro c hc hct
    cases hc
    simp [getOrCreateToken, List.isEmpty_iff, hct]
  · intro hcfg
    have hres : getOrCreateToken store bytes now = newTokenResult bytes now := by
      cases store with
      | none => rfl
      | some c =>
        have hemp : c.token.isEmpty = true := by
          simpa [configHasToken] using hcfg
        simp [getOrCreateToken, hemp]
    rw [hres]
    refine ⟨hne, rfl, rfl, ?_, ?_⟩
    · exact (validateToken_eq_true_iff _ _).mpr ⟨_, rfl, hne, rfl⟩
    · simp [getOrCreateToken, newTokenResult, List.isEmpty_iff, hne]

/-- C8 witness: creation from an empty store with 32 zero bytes of randomness,
followed by a second call with different randomness. -/
theorem C8_getOrCreate_witness :
    (getOrCreateToken none (List.replicate 32 0) 3).2.1 ≠ [] ∧
    (getOrCreateToken none (List.replicate 32 0) 3).2.2 = true ∧
    validateToken (getOrCreateToken none (List.replicate 32 0) 3).1
      (getOrCreateToken none (List.replicate 32 0) 3).2.1 = true ∧
    getOrCreateToken (getOrCreateToken none (List.replicate 32 0) 3).1
        (List.replicate 32 1) 4 =
      ((getOrCreateToken none (List.replicate 32 0) 3).1,
       (getOrCreateToken none (List.replicate 32 0) 3).2.1, false) := by
  have h := (C8_getOrCreate_idempotent none (List.replicate 32 0) (List.replicate 32 1)
    3 4 (by decide)).2 (by decide)
  exact ⟨h.1, h.2.1, h.2.2.2.1, h.2.2.2.2⟩

/-- C1 is refuted at this input: a server constructed through createRemoteServer
from an empty credential store (no credential on record) and then started binds
to 0.0.0.0, not to the loopback interface, because createRemoteServer creates a
credential via getOrCreateToken and derives hasToken = true. -/
theorem C1_counterexample :
    startHostResult (createRemoteServer none (List.replicate 32 0) 7890 0).1 1 =
      some (str "0.0.0.0") ∧
    str "0.0.0.0" ≠ str "127.0.0.1" := by
  constructor
  · rfl
  · decide

/-- C1 (amended): start binds to 127.0.0.1 when the caller indicates no
credential is configured (hasToken false) and to 0.0.0.0 when one is
(hasToken true); but a server constructed through createRemoteServer always
carries hasToken = true — getOrCreateToken creates a credential when none is on
record and generated secrets are nonempty — so such a server binds to all
interfaces even when no credential existed before construction. -/
theorem C1_bind_policy (s : RemoteServer) (now : Nat)
    (hrun : s.serverRunning = false)
    (store : Option RemoteConfig) (bytes : List Nat) (port n2 : Nat)
    (hlen : bytes.length = TOKEN_BYTES) :
    startHostResult s now = some (bindHost s.options.hasToken) ∧
    (s.options.hasToken = false → bindHost s.options.hasToken = str "127.0.0.1") ∧
    (s.options.hasToken = true → bindHost s.options.hasToken = str "0.0.0.0") ∧
    (createRemoteServer store bytes port n2).1.options.hasToken = true := by
  have hne : generateToken bytes ≠ [] := by
    refine generateToken_ne_nil bytes ?_
    intro hb
    rw [hb] at hlen
    simp [TOKEN_BYTES] at hlen
  have hpos : 0 < (generateToken bytes).length := List.length_pos.mpr hne
  refine ⟨by simp [startHostResult, start, hrun],
          fun h => by simp [bindHost, h],
          fun h => by simp [bindHost, h], ?_⟩
  cases store with
  | none =>
    simp [createRemoteServer, getOrCreateToken, newTokenResult, hpos]
  | some c =>
    by_cases hemp : c.token.isEmpty
    · simp [createRemoteServer, getOrCreateToken, hemp, newTokenResult, hpos]
    · simp [createRemoteServer, getOrCreateToken, hemp]

/-- C1 witness: a non-running server with hasToken false starts on loopback,
and construction from a store that already holds a credential yields
hasToken = true. -/
theorem C1_bind_witness :
    startHostResult
      { serverRunning := false, clients := [],
        options := { port := 7890, hasToken := false }, startedAt := none } 0 =
      some (str "127.0.0.1") ∧
    (createRemoteServer (some { token := [5], tokenCreatedAt := 0, tokenVersion := 1 })
      (List.replicate 32 2) 7890 0).1.options.hasToken = true := by
  have h := C1_bind_policy
    { serverRunning := false, clients := [],
      options := { port := 7890, hasToken := false }, startedAt := none } 0 rfl
    (some { token := [5], tokenCreatedAt := 0, tokenVersion := 1 })
    (List.replicate 32 2) 7890 0 (by decide)
  refine ⟨?_, h.2.2.2⟩
  have h1 := h.1
  rw [h.2.1 rfl] at h1
  exact h1

/-- C5: an unauthenticated session sending a well-formed message whose type is
neither auth nor ping receives error NOT_AUTHENTICATED; exactly one audit entry
is written, with success false and the message type as detail; no close effect
is emitted and the session state, in particular the authenticated flag, is
unchanged. -/
theorem C5_not_authenticated (store : Option RemoteConfig) (cc up : Nat)
    (st : ClientState) (msg : WSMessage) (fid : JStr) (now : Nat)
    (hauth : st.authenticated = false)
    (h1 : msg.type ≠ str "auth") (h2 : msg.type ≠ str "ping") :
    handleMessage store cc up st (Frame.valid msg) fid now =
      (st,
       [Effect.send (OutMessage.error fid (str "NOT_AUTHENTICATED")
          (str "Authentication required")),
        Effect.audit (logFailure now (clientLabel st) (str "unauthorized_message")
          (str "Not authenticated") (some [(str "messageType", msg.type)]))]) ∧
    (logFailure now (clientLabel st) (str "unauthorized_message")
        (str "Not authenticated") (some [(str "messageType", msg.type)])).success
      = false := by
  refine ⟨?_, rfl⟩
  simp [handleMessage, h1, h2, hauth]

/-- C5 witness: a status message on a brand-new unauthenticated session. -/
theorem C5_status_witness :
    handleMessage none 0 0
        { id := [99], ip := [108], authenticated := false, connectedAt := 0 }
        (Frame.valid { type := str "status", id := [1], timestamp := 0, token := [] })
        [2] 5 =
      ({ id := [99], ip := [108], authenticated := false, connectedAt := 0 },
       [Effect.send (OutMessage.error [2] (str "NOT_AUTHENTICATED")
          (str "Authentication required")),
        Effect.audit (logFailure 5
          (clientLabel { id := [99], ip := [108], authenticated := false, connectedAt := 0 })
          (str "unauthorized_message") (str "Not authenticated")
          (some [(str "messageType", str "status")]))]) := by
  exact (C5_not_authenticated none 0 0
    { id := [99], ip := [108], authenticated := false, connectedAt := 0 }
    { type := str "status", id := [1], timestamp := 0, token := [] }
    [2] 5 rfl (by decide) (by decide)).1

/-- C6: a session is created with authenticated = false; a routing step either
leaves the state untouched or only flips authenticated to true, and the flip
happens exactly when the frame is a valid auth message whose token validates.
In particular true never reverts to false, and a failed auth attempt leaves the
session unauthenticated. -/
theorem C6_auth_flag_monotone (clients : List (Nat × ClientState)) (ws : Nat)
    (cid ip : JStr) (n0 : Nat) (store : Option RemoteConfig) (cc up : Nat)
    (st : ClientState) (frame : Frame) (fid : JStr) (now : Nat) :
    (openConnection clients ws cid ip n0).1 =
      clients ++ [(ws, { id := cid, ip := ip, authenticated := false, connectedAt := n0 })] ∧
    ((handleMessage store cc up st frame fid now).1 = st ∨
      (handleMessage store cc up st frame fid now).1 = { st with authenticated := true }) ∧
    (st.authenticated = true →
      (handleMessage store cc up st frame fid now).1.authenticated = true) ∧
    ((handleMessage store cc up st frame fid now).1.authenticated = true →
      st.authenticated = true ∨
        ∃ msg, frame = Frame.valid msg ∧ msg.type = str "auth" ∧
          validateToken store msg.token = true) := by
  refine ⟨rfl, ?_⟩
  cases frame with
  | malformed =>
    exact ⟨Or.inl rfl, fun h => h, fun h => Or.inl h⟩
  | valid msg =>
    by_cases ha : msg.type = str "auth"
    · by_cases hv : validateToken store msg.token = true
      · have hres : (handleMessage store cc up st (Frame.valid msg) fid now).1 =
            { st with authenticated := true } := by
          simp [handleMessage, ha, handleAuth, hv]
        rw [hres]
        exact ⟨Or.inr rfl, fun _ => rfl, fun _ => Or.inr ⟨msg, rfl, ha, hv⟩⟩
      · have hres : (handleMessage store cc up st (Frame.valid msg) fid now).1 = st := by
          simp [handleMessage, ha, handleAuth, hv]
        rw [hres]
        exact ⟨Or.inl rfl, fun h => h, fun h => Or.inl h⟩
    · have hres : (handleMessage store cc up st (Frame.valid msg) fid now).1 = st := by
        simp only [handleMessage, if_neg ha]
        by_cases hp : msg.type = str "ping"
        · simp [hp]
        · simp only [if_neg hp]
          by_cases hna : st.authenticated = true
          · by_cases hs : msg.type = str "status" <;> simp [hna, hs]
          · simp [hna]
      rw [hres]
      exact ⟨Or.inl rfl, fun h => h, fun h => Or.inl h⟩

/-- C6 witness: a connection is opened unauthenticated, and a failed auth
attempt (no credential on record, so the token cannot validate) leaves it
unauthenticated. -/
theorem C6_auth_flag_witness :
    (openConnection [] 0 [1] [2] 3).1 =
      [(0, { id := [1], ip := [2], authenticated := false, connectedAt := 3 })] ∧
    (handleMessage none 0 0
        { id := [1], ip := [2], authenticated := false, connectedAt := 3 }
        (Frame.valid { type := str "auth", id := [4], timestamp := 0, token := [9] })
        [5] 6).1.authenticated = false := by
  have h := C6_auth_flag_monotone [] 0 [1] [2] 3 none 0 0
    { id := [1], ip := [2], authenticated := false, connectedAt := 3 }
    (Frame.valid { type := str "auth", id := [4], timestamp := 0, token := [9] }) [5] 6
  refine ⟨h.1, ?_⟩
  cases hb : (handleMessage none 0 0
      { id := [1], ip := [2], authenticated := false, connectedAt := 3 }
      (Frame.valid { type := str "auth", id := [4], timestamp := 0, token := [9] })
      [5] 6).1.authenticated
  · rfl
  · exfalso
    rcases h.2.2.2 hb with hc | ⟨msg, hm, hty, hv⟩
    · simp at hc
    · rw [validateToken_eq_true_iff] at hv
      obtain ⟨c, hc, -, -⟩ := hv
      exact Option.noConfusion hc

/-- C7: a frame that fails to parse as the envelope structure yields error
INVALID_JSON and one parse-failure audit entry; the session state is unchanged
and no close effect is emitted, so a single bad frame never terminates the
session. -/
theorem C7_invalid_json (store : Option RemoteConfig) (cc up : Nat)
    (st : ClientState) (fid : JStr) (now : Nat) :
    handleMessage store cc up st Frame.malformed fid now =
      (st,
       [Effect.send (OutMessage.error fid (str "INVALID_JSON")
          (str "Invalid JSON message")),
        Effect.audit (logFailure now (clientLabel st) (str "message_parse")
          (str "Invalid JSON") none)]) ∧
    ∀ sock, Effect.closeConn sock ∉
      (handleMessage store cc up st Frame.malformed fid now).2 := by
  refine ⟨rfl, ?_⟩
  intro sock
  simp [handleMessage]

/-- C7 witness: a malformed frame on a concrete unauthenticated session. -/
theorem C7_invalid_json_witness :
    handleMessage none 0 0
        { id := [1], ip := [2], authenticated := false, connectedAt := 0 }
        Frame.malformed [3] 4 =
      ({ id := [1], ip := [2], authenticated := false, connectedAt := 0 },
       [Effect.send (OutMessage.error [3] (str "INVALID_JSON")
          (str "Invalid JSON message")),
        Effect.audit (logFailure 4
          (clientLabel { id := [1], ip := [2], authenticated := false, connectedAt := 0 })
          (str "message_parse") (str "Invalid JSON") none)]) ∧
    Effect.closeConn 0 ∉
      (handleMessage none 0 0
        { id := [1], ip := [2], authenticated := false, connectedAt := 0 }
        Frame.malformed [3] 4).2 := by
  have h := C7_invalid_json none 0 0
    { id := [1], ip := [2], authenticated := false, connectedAt := 0 } [3] 4
  exact ⟨h.1, h.2 0⟩

/-- C9: a ping with correlation id I, in any session state (including a
brand-new unauthenticated one), is answered within the same routing step by
exactly one pong carrying exactly id I, with the session state unchanged and no
audit or close effect. -/
theorem C9_ping_pong (store : Option RemoteConfig) (cc up : Nat)
    (st : ClientState) (i : JStr) (ts : Nat) (tok fid : JStr) (now : Nat) :
    handleMessage store cc up st
        (Frame.valid { type := str "ping", id := i, timestamp := ts, token := tok })
        fid now =
      (st, [Effect.send (OutMessage.pong i)]) := by
  have hne : (str "ping" : JStr) ≠ str "auth" := by decide
  simp [handleMessage, hne]

/-- C10: stop is idempotent and total: on a running server it emits a close
effect for every registered session, clears the registry, releases the
listening socket (serverRunning becomes false) and audits one stop event; on a
non-running server it is a no-op with no effects; and a second consecutive call
is always a no-op. -/
theorem C10_stop_idempotent (s : RemoteServer) (now now2 : Nat) :
    (s.serverRunning = false → stop s now = (s, [])) ∧
    (s.serverRunning = true →
      (stop s now).1 = { s with serverRunning := false, clients := [] } ∧
      (stop s now).2 =
        s.clients.map (fun c => Effect.closeConn c.1) ++
          [Effect.audit (logServerEvent now (str "stop") none)]) ∧
    stop (stop s now).1 now2 = ((stop s now).1, []) := by
  refine ⟨fun h => by simp [stop, h], fun h => by simp [stop, h], ?_⟩
  by_cases h : s.serverRunning = true
  · simp [stop, h]
  · simp [stop, h]

/-- C10 witness: stopping a running server with one registered session closes
it, clears the registry and audits a stop event; the immediate second stop is a
no-op. -/
theorem C10_stop_witness :
    (stop
      { serverRunning := true,
        clients := [(7, { id := [1], ip := [2], authenticated := true, connectedAt := 0 })],
        options := { port := 7890, hasToken := true }, startedAt := some 0 } 1).1 =
      { serverRunning := false, clients := [],
        options := { port := 7890, hasToken := true }, startedAt := some 0 } ∧
    (stop
      { serverRunning := true,
        clients := [(7, { id := [1], ip := [2], authenticated := true, connectedAt := 0 })],
        options := { port := 7890, hasToken := true }, startedAt := some 0 } 1).2 =
      [Effect.closeConn 7, Effect.audit (logServerEvent 1 (str "stop") none)] ∧
    stop (stop
      { serverRunning := true,
        clients := [(7, { id := [1], ip := [2], authenticated := true, connectedAt := 0 })],
        options := { port := 7890, hasToken := true }, startedAt := some 0 } 1).1 2 =
      ((stop
        { serverRunning := true,
          clients := [(7, { id := [1], ip := [2], authenticated := true, connectedAt := 0 })],
          options := { port := 7890, hasToken := true }, startedAt := some 0 } 1).1, []) := by
  have h := C10_stop_idempotent
    { serverRunning := true,
      clients := [(7, { id := [1], ip := [2], authenticated := true, connectedAt := 0 })],
      options := { port := 7890, hasToken := true }, startedAt := some 0 } 1 2
  exact ⟨(h.2.1 rfl).1, (h.2.1 rfl).2, h.2.2⟩

end RalphTui
